import Mathlib

/-
Shallow embedding of the ingestion / reconciliation / derivation engine of
`CR_Bank_DashvMSPB.py` (Credit Risk Dashboard).

Conventions used throughout:
* a pandas cell is `Option ℚ`: `none` models NaN / missing, `some q` a number;
* a report date (`REPDTE`) is a natural number encoding `4 * year + (quarter - 1)`,
  so the calendar quarter of period `p` is `p % 4 + 1` and larger numbers are
  later dates;
* a DataFrame is a column list plus a row list; a column that is in `cols` but
  has no entry in a row's cell list is NaN for that row, exactly like pandas.
-/

namespace BankDash

/-- A pandas cell value: `none` is NaN/missing, `some q` a numeric value. -/
abbrev Val := Option ℚ

/-- One row of the combined FDIC table: institution certificate, report
period and the named field cells.  A field absent from `cells` is NaN. -/
structure BankRow where
  cert : ℕ
  repdte : ℕ
  cells : List (String × Val)
deriving DecidableEq

/-- The combined per-institution quarterly DataFrame: its column set and rows. -/
structure BankTable where
  cols : List String
  rows : List BankRow
deriving DecidableEq

/-- Cell access `df.loc[row, col]`: first matching entry, `none` when the
column is not set on this row (pandas NaN). -/
def BankRow.get (r : BankRow) (col : String) : Val :=
  (List.lookup col r.cells).join

/-- Column assignment on one row: prepend the new value (later `get`s see it). -/
def setCell (r : BankRow) (col : String) (v : Val) : BankRow :=
  { r with cells := (col, v) :: r.cells }

/-!  ## FFIECBulkLoader.heal_dataset - the fusion rule (claim C2)

The merge loop of `heal_dataset` is, per column already present in the main
frame:

    df_main[col] = df_main[col].fillna(df_p[col])
    mask_fix = (df_main[col] == 0) & (df_p[col].notna()) & (df_p[col] != 0)
    df_main.loc[mask_fix, col] = df_p.loc[mask_fix, col]

`healCell e r` is that computation on one `(CERT, REPDTE)` cell: `e` is the
existing main-frame value, `r` the recovered FFIEC value (also `none` when the
cell's key is absent from the patch frame, which pandas alignment turns into
NaN). -/
def healCell (e r : Val) : Val :=
  let e1 : Val := match e with
    | none => r
    | some v => some v
  match e1, r with
  | some v, some w => if v = 0 ∧ w ≠ 0 then some w else some v
  | _, _ => e1

/-! ## BankMetricsProcessor._safe_divide (claim C4)

    def _safe_divide(self, numerator, denominator, fill_value=0.0):
        if np.isscalar(numerator) and np.isscalar(denominator):
            return numerator / denominator if denominator != 0 else fill_value
        if isinstance(denominator, pd.Series):
            denom_safe = denominator.replace(0, np.nan)
            return (numerator / denom_safe).fillna(fill_value)
        ...

Note that in the scalar branch a NaN denominator satisfies `denominator != 0`
(NaN compares unequal to everything in IEEE semantics), so the division is
performed and returns NaN. -/

/-- Scalar branch of `_safe_divide`.  `none` models a NaN scalar; NaN
propagates through `/` and `NaN != 0` is true. -/
def scalarSafeDivide (num den : Val) (fill : ℚ) : Val :=
  if den = some 0 then some fill
  else
    match num, den with
    | some a, some b => some (a / b)
    | _, _ => none

/-- Series branch of `_safe_divide`, per cell: `denominator.replace(0, np.nan)`. -/
def denomReplaceZero (den : Val) : Val :=
  if den = some 0 then none else den

/-- Series branch continued: NaN-propagating division, then `fillna(fill)`. -/
def seriesSafeDivideCell (num den : Val) (fill : ℚ) : Val :=
  match num, denomReplaceZero den with
  | some a, some b => some (a / b)
  | _, _ => some fill

/-! ## calc_safe_growth (claim C7)

    def calc_safe_growth(curr, prev):
        if pd.isna(curr) or pd.isna(prev): return np.nan
        if prev == 0:
            return 0.0 if curr == 0 else np.nan # 0->0 is 0%
        return (curr - prev) / abs(prev) * 100
-/

/-- TTM growth policy of `calculate_ttm_metrics`. -/
def calcSafeGrowth (curr prev : Val) : Val :=
  match curr, prev with
  | some c, some p =>
      if p = 0 then (if c = 0 then some 0 else none)
      else some ((c - p) / |p| * 100)
  | _, _ => none

/-- Application context of `calcSafeGrowth`: the previous balance is the value
four observations back (`shift(4)`; the first four positions are NaN). -/
def growthSeriesTTM (vals : List Val) (i : ℕ) : Val :=
  calcSafeGrowth (vals.getD i none) (if i < 4 then none else vals.getD (i - 4) none)

/-! ## Field resolution layer (claim C5)

`row.get(s)` (pandas `Series.get` without default) distinguishes a label that
is absent from the row from a label carried with value NaN, and
`row.get(s, 0)` maps absent labels to `0` but leaves NaN alone; both matter to
`resolve`, so a cell of a row seen by the resolver is a three-way value. -/

/-- A cell as seen by `resolve`: the label is absent, present-but-NaN, or a
number. -/
inductive RCell where
  | absent : RCell
  | navalue : RCell
  | val : ℚ → RCell
deriving DecidableEq

/-- A row as seen by `resolve`: label to cell. -/
abbrev RRow := String → RCell

/-- Python `row.get(s, 0)`: absent label gives the default `0`, a NaN cell
stays NaN. -/
def rowGetD (row : RRow) (s : String) : Val :=
  match row s with
  | RCell.absent => some 0
  | RCell.navalue => none
  | RCell.val q => some q

/-- NaN-propagating subtraction of scalars. -/
def optSub (a b : Val) : Val :=
  match a, b with
  | some x, some y => some (x - y)
  | _, _ => none

/-- Python `max(0, x)` for a possibly-NaN `x`: NaN comparisons are false, so
`max(0, nan)` keeps the first argument `0`. -/
def pyMax0 : Val → ℚ
  | none => 0
  | some q => max 0 q

/-- The candidate loop of `resolve`:

        for s in src:
            val = row.get(s)
            if pd.notna(val) and val != 0: return val
        return 0
-/
def resolveRaw (src : List String) (row : RRow) : ℚ :=
  match src with
  | [] => 0
  | s :: rest =>
      match row s with
      | RCell.val q => if q ≠ 0 then q else resolveRaw rest row
      | _ => resolveRaw rest row

/-- `resolve` from `create_derived_metrics`:

        def resolve(row, src=sources, fld=field):
            if "DERIVED" in src:
                if fld == "LNCONOTHX":
                    return max(0, row.get('LNCON',0)-row.get('LNAUTO',0)-row.get('LNCRCD',0))
                return 0
            for s in src: ...
-/
def resolveField (fld : String) (src : List String) (row : RRow) : ℚ :=
  if src.contains "DERIVED" then
    if fld = "LNCONOTHX" then
      pyMax0 (optSub (optSub (rowGetD row "LNCON") (rowGetD row "LNAUTO")) (rowGetD row "LNCRCD"))
    else 0
  else resolveRaw src row

/-- `FDIC_FALLBACK_MAP`, verbatim from the source. -/
def fdicFallbackMap : List (String × List String) :=
  [ ("LNOTHPCS", ["RCFD1545", "RCON1545", "LNOTHER"]),
    ("LNOTHNONDEP", ["RCFDJ454", "RCONJ454"]),
    ("RCFDJ466", ["FFIEC"]),
    ("RCFDJ467", ["FFIEC"]),
    ("RCFDJ468", ["FFIEC"]),
    ("RCFDJ469", ["FFIEC"]),
    ("RCFDJ470", ["FFIEC"]),
    ("RCFDJ471", ["FFIEC"]),
    ("RCFDJ472", ["FFIEC"]),
    ("RCFDJ474", ["FFIEC"]),
    ("LNCONAUTO", ["LNAUTO"]),
    ("LNCONCC", ["LNCRCD"]),
    ("LNCONOTHX", ["DERIVED"]),
    ("LNREOTH", ["LNRENROT"]),
    ("NALRERES", ["NARERES"]),
    ("P9RENRES", ["P9RENROT"]) ]

/-! ## YTD to quarterly conversion (claim C6)

        for cert, group in df_processed.groupby('CERT'):
            group = group.sort_values('REPDTE')
            for col in ytd_fields:
                quarterly_vals = group[col].diff()
                q1_mask = group['REPDTE'].dt.quarter == 1
                quarterly_vals.loc[q1_mask] = group.loc[q1_mask, col]
                df_processed.loc[group.index, f"col_Q"] = quarterly_vals

A period `p : ℕ` encodes `4 * year + (quarter - 1)`, so calendar Q1 is
`p % 4 = 0`. -/

/-- One YTD observation row before grouping: institution, period, cumulative
value. -/
structure YtdRow where
  cert : ℕ
  per : ℕ
  val : Val
deriving DecidableEq

/-- `diff()` with the Q1 override, walking the institution's sorted rows.
The accumulator is the previous row's cumulative value (`none` before the
first row, matching `diff()`'s leading NaN). -/
def ytdConvert (prev : Val) : List (ℕ × Val) → List Val
  | [] => []
  | (p, v) :: rest =>
      (if p % 4 = 0 then v else optSub v prev) :: ytdConvert v rest

/-- Insert into a list kept ascending by period. -/
def insertPer (x : ℕ × Val) : List (ℕ × Val) → List (ℕ × Val)
  | [] => [x]
  | y :: ys => if x.1 ≤ y.1 then x :: y :: ys else y :: insertPer x ys

/-- Sort a list of (period, value) pairs ascending by period
(`sort_values('REPDTE')`). -/
def sortPer (l : List (ℕ × Val)) : List (ℕ × Val) :=
  l.foldr insertPer []

/-- The grouped conversion for one institution: filter the institution's rows
(`groupby('CERT')`), sort ascending, convert.  Other institutions' rows never
enter the difference. -/
def ytdQuarterlyFor (rows : List YtdRow) (c : ℕ) : List Val :=
  ytdConvert none (sortPer ((rows.filter (fun r => r.cert == c)).map (fun r => (r.per, r.val))))

/-! ## Rolling windows and TTM rates (claim C3) -/

/-- The positions a length-`w` rolling window sees at index `i`
(`max (i+1-w) 0` through `i`). -/
def windowSlice (w : ℕ) (vals : List Val) (i : ℕ) : List Val :=
  (vals.take (i + 1)).drop (i + 1 - w)

/-- Every cell of the window is a number (no NaN). -/
def allSomeB (l : List Val) : Bool :=
  l.all (fun o => o.isSome)

/-- pandas `rolling(w).sum()` at index `i` with the default
`min_periods = w`: NaN unless the window holds `w` non-NaN observations. -/
def rollingSum (w : ℕ) (vals : List Val) (i : ℕ) : Val :=
  let win := windowSlice w vals i
  if win.length = w ∧ allSomeB win then some ((win.map (fun o => o.getD 0)).sum)
  else none

/-- pandas `rolling(w).mean()` at index `i` with the default
`min_periods = w`. -/
def rollingMean (w : ℕ) (vals : List Val) (i : ℕ) : Val :=
  (rollingSum w vals i).map (fun s => s / (w : ℚ))

/-- NaN-propagating addition of cells. -/
def optAdd (a b : Val) : Val :=
  match a, b with
  | some x, some y => some (x + y)
  | _, _ => none

/-- `TTM_NCO_Rate` at index `i` of one institution's ascending rows
(computed when the institution has at least 4 rows):

    bank_df['TTM_NCO_Rate'] = self._safe_divide(
        bank_df['NTLNLS_Q'].rolling(4).sum(), avg_loans)

with `avg_loans = bank_df['LNLS'].rolling(4).mean()`. -/
def ttmNcoRate (ntlnlsQ lnls : List Val) (i : ℕ) : Val :=
  seriesSafeDivideCell (rollingSum 4 ntlnlsQ i) (rollingMean 4 lnls i) 0

/-- `TTM_Past_Due_Rate` at index `i`:

    self._safe_divide((bank_df.get('P3LNLS', 0) + bank_df.get('P9LNLS', 0))
        .rolling(4).mean(), avg_loans)
-/
def ttmPastDueRate (p3 p9 lnls : List Val) (i : ℕ) : Val :=
  seriesSafeDivideCell (rollingMean 4 (List.zipWith optAdd p3 p9) i) (rollingMean 4 lnls i) 0

/-- `calculate_8q_averages` for one institution and one numeric metric column
(rows ascending): institutions with fewer than 8 rows are skipped entirely
(outer `none`, no record emitted); otherwise the value is
`rolling(8).mean().iloc[-1]`, which may itself be NaN. -/
def eightQLastAvg (vals : List Val) : Option Val :=
  if vals.length < 8 then none
  else some (rollingMean 8 vals (vals.length - 1))

/-! ## FFIECBulkLoader: need assessment, healing scope, protocol (C8, C9, C10) -/

/-- The canary columns of `_quarter_needs_patching`. -/
def canaryCols : List String :=
  ["RCFD1545", "LNOTHPCS", "RCFDJ466"]

/-- `self.target_fields` from `FFIECBulkLoader.__init__`, verbatim. -/
def targetFields : List String :=
  ["RCFD1545", "RCON1545", "RCFDJ454", "RCONJ454",
   "RCFDJ466", "RCONJ466", "RCFDJ467", "RCONJ467",
   "RCFDJ468", "RCONJ468", "RCFDJ469", "RCONJ469",
   "RCFDJ470", "RCONJ470", "RCFDJ471", "RCONJ471",
   "RCFDJ472", "RCONJ472", "RCFDJ474", "RCONJ474"]

/-- Count of the period's canary cells that are NaN or exactly zero
(`((vals.isna()) | (vals == 0)).sum()` summed over the checked columns). -/
def missingOrZeroCount (df : BankTable) (d : ℕ) : ℕ :=
  let q := df.rows.filter (fun r => r.repdte == d)
  let checkCols := canaryCols.filter (fun c => df.cols.contains c)
  (checkCols.map (fun c =>
    q.countP (fun r => decide (r.get c = none ∨ r.get c = some 0)))).sum

/-- Total queried canary cells for the period
(`total_cells = len(check_cols) * len(q_data)` accumulated per column). -/
def totalCellsCount (df : BankTable) (d : ℕ) : ℕ :=
  let q := df.rows.filter (fun r => r.repdte == d)
  let checkCols := canaryCols.filter (fun c => df.cols.contains c)
  checkCols.length * q.length

/-- `FFIECBulkLoader._quarter_needs_patching`:

    if df_fdic.empty: return True
    q_data = df_fdic[df_fdic['REPDTE'] == date_obj]
    if q_data.empty: return False
    check_cols = [c for c in ['RCFD1545','LNOTHPCS','RCFDJ466'] if c in q_data.columns]
    if not check_cols: return True
    ... count missing-or-zero cells ...
    return (missing_or_zero / total_cells) > 0.5 if total_cells > 0 else True

The fraction comparison `moz / total > 0.5` is rendered over ℕ as
`2 * moz > total`. -/
def quarterNeedsPatching (df : BankTable) (d : ℕ) : Bool :=
  if df.rows.isEmpty then true
  else
    let q := df.rows.filter (fun r => r.repdte == d)
    if q.isEmpty then false
    else
      let checkCols := canaryCols.filter (fun c => df.cols.contains c)
      if checkCols.isEmpty then true
      else
        if totalCellsCount df d = 0 then true
        else decide (2 * missingOrZeroCount df d > totalCellsCount df d)

/-- Distinct report dates of the frame, newest first
(`sorted(df_fdic['REPDTE'].unique(), reverse=True)`): insertion step. -/
def insertDesc (x : ℕ) : List ℕ → List ℕ
  | [] => [x]
  | y :: ys => if x ≥ y then x :: y :: ys else y :: insertDesc x ys

/-- Distinct report dates of the frame, newest first. -/
def distinctDatesDesc (df : BankTable) : List ℕ :=
  ((df.rows.map (fun r => r.repdte)).dedup).foldr insertDesc []

/-- The dates `heal_dataset` actually runs the bulk protocol for: the 8
newest distinct dates that fail the sufficiency check. -/
def healRequestedDates (df : BankTable) : List ℕ :=
  ((distinctDatesDesc df).take 8).filter (fun d => quarterNeedsPatching df d)

/-- The per-date loop of `heal_dataset`: skip sufficient periods, fetch the
rest, keep non-empty results.  `fetch d` abstracts `fetch_quarter_data` for
date `d` (cache or network). -/
def healFrames (df : BankTable) (fetch : ℕ → List BankRow) : List (List BankRow) :=
  ((distinctDatesDesc df).take 8).filterMap (fun d =>
    if quarterNeedsPatching df d then
      (if (fetch d).isEmpty then none else some (fetch d))
    else none)

/-- Union of the columns present in the patch frame (`df_patch.columns`). -/
def patchCols (patch : List BankRow) : List String :=
  ((patch.map (fun r => r.cells.map Prod.fst)).flatten).dedup

/-- `df_p.loc[(cert, repdte), col]` after `df_patch.set_index(['CERT','REPDTE'])`:
NaN when the key is absent from the patch or the row lacks the column. -/
def patchLookup (patch : List BankRow) (c p : ℕ) (col : String) : Val :=
  match patch.find? (fun r => r.cert == c && r.repdte == p) with
  | none => none
  | some r => r.get col

/-- One iteration of the merge loop of `heal_dataset` for column `col`:

    if col in df_p.columns:
        if col not in df_main.columns:
            df_main[col] = df_p[col]
        else:
            df_main[col] = df_main[col].fillna(df_p[col])
            mask_fix = (df_main[col] == 0) & (df_p[col].notna()) & (df_p[col] != 0)
            if mask_fix.any(): df_main.loc[mask_fix, col] = df_p.loc[mask_fix, col]
-/
def mergeStep (patch : List BankRow) (t : BankTable) (col : String) : BankTable :=
  if (patchCols patch).contains col then
    if t.cols.contains col then
      { t with rows := t.rows.map (fun r =>
          setCell r col (healCell (r.get col) (patchLookup patch r.cert r.repdte col))) }
    else
      { cols := t.cols ++ [col],
        rows := t.rows.map (fun r =>
          setCell r col (patchLookup patch r.cert r.repdte col)) }
  else t

/-- The full merge loop, over `self.target_fields`. -/
def mergeTables (main : BankTable) (patch : List BankRow) : BankTable :=
  targetFields.foldl (mergeStep patch) main

/-- `FFIECBulkLoader.heal_dataset`.  The second component models the
`FFIEC_RIC_STATUS` column, which the code writes uniformly across the whole
frame: `none` = column never written (empty input), `some false` = FAILED
(no period produced data), `some true` = SUCCESS (at least one did). -/
def healDataset (df : BankTable) (fetch : ℕ → List BankRow) : BankTable × Option Bool :=
  if df.rows.isEmpty then (df, none)
  else
    let frames := healFrames df fetch
    if frames.isEmpty then (df, some false)
    else (mergeTables df frames.flatten, some true)

/-! ## FFIECBulkLoader._download_with_webforms and retry loop (claim C8) -/

/-- Abstraction of one HTTP exchange of the WebForms protocol: status code,
whether the HTML carries a `__VIEWSTATE` hidden field, and whether the body
is a binary archive (`PK` magic bytes or zip/octet-stream content type). -/
structure Response where
  status : ℕ
  hasViewState : Bool
  isZip : Bool
deriving DecidableEq

/-- The three server responses one fresh session sees during one attempt
(`_download_with_webforms` builds a new `requests.Session` per call, so
attempts are independent). -/
structure AttemptEnv where
  r1 : Response
  r2 : Response
  r3 : Response
deriving DecidableEq

/-- The failure shapes of the claim: a step response missing the expected
hidden state token, or a step-3 body that is HTML instead of an archive. -/
def badAttempt (a : AttemptEnv) : Bool :=
  !a.r1.hasViewState || !a.r2.hasViewState || !a.r3.isZip

/-- `_download_with_webforms`: `true` iff the attempt ends by returning the
step-3 response as a ZIP; every other path returns `None`. -/
def downloadWithWebforms (a : AttemptEnv) : Bool :=
  if a.r1.status ≠ 200 then false
  else if !a.r1.hasViewState then false
  else if a.r2.status ≠ 200 then false
  else if !a.r2.hasViewState then false
  else decide (a.r3.status = 200) && a.r3.isZip

/-- The retry loop of `fetch_quarter_data` (cache miss path):

    for attempt in range(3):
        r = self._download_with_webforms(date_fmt)
        if r: break
        time.sleep(2)
    if not r: return pd.DataFrame()

Result: whether a download succeeded, and how many attempts ran. -/
def fetchQuarterRetry (env : ℕ → AttemptEnv) : Bool × ℕ :=
  if downloadWithWebforms (env 0) then (true, 1)
  else if downloadWithWebforms (env 1) then (true, 2)
  else if downloadWithWebforms (env 2) then (true, 3)
  else (false, 3)

/-- `fetch_quarter_data` after the retry loop: the ZIP parser runs only when
a download succeeded; `parsed` abstracts the rows the archive parser would
produce.  On failure the empty frame is returned without touching the
parser. -/
def fetchQuarterOutcome (env : ℕ → AttemptEnv) (parsed : List BankRow) : List BankRow :=
  if (fetchQuarterRetry env).1 then parsed else []

/-! ## FDICDataFetcher.fetch_all_banks - the LNCI rejoin (claim C1)

After the main per-institution fetch, `fetch_lnci_separately` returns rows
keyed by (CERT, REPDTE); `fetch_all_banks` counts the overlapping keys, logs
an error when the overlap is zero, and then performs the left merge
unconditionally.  When the merged LNCI column is entirely NaN it re-merges on
stringified dates; both key forms are images of the same normalized
`(CERT, REPDTE)` pair under an injective map, so the fallback merge yields
the same column and is folded into the single lookup below.  No exception is
raised on this path and no `JoinIntegrityError` identifier exists in the
program. -/

/-- One row of the separately fetched LNCI series. -/
structure LnciRow where
  cert : ℕ
  repdte : ℕ
  lnci : Val
deriving DecidableEq

/-- Left-merge lookup of the LNCI value for a main-frame key. -/
def lnciLookup (lnci : List LnciRow) (c p : ℕ) : Val :=
  match lnci.find? (fun l => l.cert == c && l.repdte == p) with
  | none => none
  | some l => l.lnci

/-- The number of distinct main-frame keys that also occur in the LNCI frame
(`main_keys.intersection(lnci_keys)`). -/
def overlapKeys (main : BankTable) (lnci : List LnciRow) : ℕ :=
  ((main.rows.map (fun r => (r.cert, r.repdte))).dedup).countP
    (fun k => lnci.any (fun l => l.cert == k.1 && l.repdte == k.2))

/-- The LNCI rejoin step of `fetch_all_banks`.  The boolean records whether
the `NO OVERLAPPING KEYS` error was logged; in every case the merged frame is
returned and the run continues into the FFIEC healer. -/
def mergeLnci (main : BankTable) (lnci : List LnciRow) : BankTable × Bool :=
  if lnci.isEmpty then
    ({ cols := main.cols ++ ["LNCI"],
       rows := main.rows.map (fun r => setCell r "LNCI" none) }, false)
  else
    ({ cols := main.cols ++ ["LNCI"],
       rows := main.rows.map (fun r => setCell r "LNCI" (lnciLookup lnci r.cert r.repdte)) },
     decide (overlapKeys main lnci = 0))

/-- The value of the row preceding a suffix while walking `ytdConvert`:
the last cumulative value of the prefix, or the incoming carry for an empty
prefix. -/
def carryVal (prev : Val) (xs : List (ℕ × Val)) : Val :=
  match xs.getLast? with
  | none => prev
  | some x => x.2

/-!  ## Concrete sample data used by counterexamples and witnesses -/

/-- Four quarterly net charge-off observations, all present. -/
def q4demo : List Val := [some 1, some 1, some 1, some 1]

/-- Four quarterly loan balances, all present. -/
def ln4demo : List Val := [some 100, some 100, some 100, some 100]

/-- Seven observations: one short of the 8-quarter window. -/
def sevenDemo : List Val :=
  [some 1, some 2, some 3, some 4, some 5, some 6, some 7]

/-- Eight observations, all present. -/
def eightDemo : List Val :=
  [some 1, some 2, some 3, some 4, some 5, some 6, some 7, some 8]

/-- Resolution example: candidates `[RCFDJ454, RCONJ454]`, first missing,
second 100. -/
def rowExampleA : RRow := fun s =>
  if s = "RCONJ454" then RCell.val 100 else RCell.absent

/-- Resolution example for the derived residual: `LNCON = 300`, `LNAUTO = 50`,
`LNCRCD = 0`. -/
def rowExampleB : RRow := fun s =>
  if s = "LNCON" then RCell.val 300
  else if s = "LNAUTO" then RCell.val 50
  else if s = "LNCRCD" then RCell.val 0
  else RCell.absent

/-- YTD sample rows for institution 1 (one fiscal year, periods 8..11). -/
def rows6demo : List YtdRow := [⟨1, 8, some 10⟩]

/-- YTD sample rows belonging to a different institution. -/
def extra6demo : List YtdRow := [⟨2, 9, some 5⟩]

/-- A raw frame whose period-7 canary cells are present and non-zero for
exactly half of the queried cells (3 of 6). -/
def df9demo : BankTable :=
  { cols := ["CERT", "REPDTE", "RCFD1545", "LNOTHPCS", "RCFDJ466"],
    rows :=
      [⟨1, 7, [("RCFD1545", some 5), ("LNOTHPCS", some 7), ("RCFDJ466", some 0)]⟩,
       ⟨2, 7, [("RCFD1545", some 3), ("LNOTHPCS", some 0), ("RCFDJ466", some 0)]⟩] }

/-- A raw frame with 9 distinct reporting periods, every canary cell NaN. -/
def df10demo : BankTable :=
  { cols := ["CERT", "REPDTE", "RCFD1545"],
    rows :=
      [⟨1, 1, []⟩, ⟨1, 2, []⟩, ⟨1, 3, []⟩, ⟨1, 4, []⟩, ⟨1, 5, []⟩,
       ⟨1, 6, []⟩, ⟨1, 7, []⟩, ⟨1, 8, []⟩, ⟨1, 9, []⟩] }

/-- A bulk fetch that never returns data. -/
def fetch10demo : ℕ → List BankRow := fun _ => []

/-- A raw frame with two sparse periods, both needing healing. -/
def df8demo : BankTable :=
  { cols := ["CERT", "REPDTE", "RCFD1545"],
    rows := [⟨1, 1, []⟩, ⟨1, 2, []⟩] }

/-- A bulk fetch where period 2 succeeds and period 1 fails after its
retries (empty frame). -/
def fetch8demo : ℕ → List BankRow := fun p =>
  if p = 2 then [⟨1, 2, [("RCFD1545", some 5)]⟩] else []

/-- Attempt responses that always fail: step 1 misses the `__VIEWSTATE`
token and step 3, were it reached, would be HTML rather than an archive. -/
def badEnvDemo : AttemptEnv :=
  ⟨⟨200, false, false⟩, ⟨200, true, false⟩, ⟨200, true, false⟩⟩

/-- A one-row main frame for the LNCI rejoin. -/
def main1demo : BankTable :=
  { cols := ["CERT", "REPDTE", "ASSET"], rows := [⟨1, 1, [("ASSET", some 10)]⟩] }

/-- A separately fetched LNCI frame sharing no (CERT, REPDTE) key with
`main1demo`. -/
def lnci1demo : List LnciRow := [⟨2, 5, some 3⟩]

/-!  # Theorems -/

/-- C2: the bulk-healer fusion rule overwrites an existing raw cell only when
it is absent (NaN) or exactly zero with a present non-zero recovered value;
in particular existing 0 with recovered 500 becomes 500, while an existing
500 survives a recovered 0 and a recovered NaN. -/
theorem c2_heal_fusion :
    (∀ e r : Val, healCell e r = e ∨
      (e = none ∧ healCell e r = r) ∨
      (e = some 0 ∧ (∃ w : ℚ, r = some w ∧ w ≠ 0) ∧ healCell e r = r)) ∧
    healCell (some 0) (some 500) = some 500 ∧
    healCell (some 500) (some 0) = some 500 ∧
    healCell (some 500) none = some 500 := by
  refine ⟨?_, by decide, by decide, by decide⟩
  intro e r
  cases e with
  | none =>
      refine Or.inr (Or.inl ⟨rfl, ?_⟩)
      cases r with
      | none => simp [healCell]
      | some w => simp [healCell]
  | some v =>
      cases r with
      | none => exact Or.inl (by simp [healCell])
      | some w =>
          by_cases h : v = 0 ∧ w ≠ 0
          · exact Or.inr (Or.inr ⟨by rw [h.1], ⟨w, rfl, h.2⟩, by simp [healCell, h]⟩)
          · exact Or.inl (by simp [healCell, h])

/-- C4 counterexample: the scalar branch of `_safe_divide` with a NaN
denominator takes the `denominator != 0` path (NaN compares unequal to 0)
and returns NaN, not the configured fill value. -/
theorem c4_scalar_nan_cex :
    scalarSafeDivide (some 1) none 0 = none ∧ (none : Val) ≠ some (0 : ℚ) := by
  exact ⟨by decide, by simp⟩

/-- C4 amended: `_safe_divide` returns exactly the fill on a zero denominator
in both branches and on a missing denominator in the series branch, and the
series branch never yields NaN; but the scalar branch on a missing (NaN)
denominator yields NaN rather than the fill. -/
theorem c4_safe_divide_fill :
    (∀ (n : Val) (fill : ℚ), scalarSafeDivide n (some 0) fill = some fill) ∧
    (∀ (n d : Val) (fill : ℚ), d = none ∨ d = some 0 →
      seriesSafeDivideCell n d fill = some fill) ∧
    (∀ (n d : Val) (fill : ℚ), ∃ v : ℚ, seriesSafeDivideCell n d fill = some v) ∧
    (∀ (a fill : ℚ), scalarSafeDivide (some a) none fill = none) := by
  refine ⟨?_, ?_, ?_, ?_⟩
  · intro n fill; simp [scalarSafeDivide]
  · intro n d fill h
    rcases h with h | h <;> subst h <;> cases n <;> simp [seriesSafeDivideCell, denomReplaceZero]
  · intro n d fill
    by_cases hd : d = some 0
    · subst hd; cases n <;> exact ⟨fill, by simp [seriesSafeDivideCell, denomReplaceZero]⟩
    · cases n with
      | none => cases d with
        | none => exact ⟨fill, by simp [seriesSafeDivideCell, denomReplaceZero]⟩
        | some b => exact ⟨fill, by simp [seriesSafeDivideCell, denomReplaceZero, hd]⟩
      | some a => cases d with
        | none => exact ⟨fill, by simp [seriesSafeDivideCell, denomReplaceZero]⟩
        | some b => exact ⟨a / b, by simp [seriesSafeDivideCell, denomReplaceZero, hd]⟩
  · intro a fill; simp [scalarSafeDivide]

/-- C4 witness: the amended statement at concrete inputs. -/
theorem c4_witness :
    seriesSafeDivideCell (some 7) none (0 : ℚ) = some 0 :=
  c4_safe_divide_fill.2.1 (some 7) none 0 (Or.inl rfl)

/-- C7: the growth policy of `calculate_ttm_metrics` returns exactly 0 when
both the current value and the value four observations back are 0, and NaN
(no numeric value, hence neither an infinity nor a large finite number) when
the prior value is 0 and the current one is non-zero; `growthSeriesTTM`
applies it against the value `shift(4)` back. -/
theorem c7_growth_policy :
    calcSafeGrowth (some 0) (some 0) = some 0 ∧
    (∀ c : ℚ, c ≠ 0 → calcSafeGrowth (some c) (some 0) = none) ∧
    (∀ (vals : List Val) (i : ℕ), 4 ≤ i →
      growthSeriesTTM vals i =
        calcSafeGrowth (vals.getD i none) (vals.getD (i - 4) none)) := by
  refine ⟨by decide, ?_, ?_⟩
  · intro c hc; simp [calcSafeGrowth, hc]
  · intro vals i hi
    simp [growthSeriesTTM, Nat.not_lt.mpr hi]

/-- C7 witness: growth from a prior 0 to a non-zero 5 has no value. -/
theorem c7_witness : calcSafeGrowth (some 5) (some 0) = none :=
  c7_growth_policy.2.1 5 (by norm_num)

/-- A NaN numerator always comes out of the series-safe divide as the fill. -/
theorem seriesSafeDivideCell_none (d : Val) (fill : ℚ) :
    seriesSafeDivideCell none d fill = some fill := by
  rcases hdd : denomReplaceZero d with _ | b <;> simp [seriesSafeDivideCell, hdd]

/-- C3 counterexample: for an institution with exactly 4 rows (so the TTM
block runs), the emitted `TTM_NCO_Rate` at index 2 — where only 3 of the 4
window observations exist and the rolling sum itself is NaN — is the safe
divide fill `0.0`, a defined number, not null. -/
theorem c3_partial_window_cex :
    rollingSum 4 q4demo 2 = none ∧ ttmNcoRate q4demo ln4demo 2 = some 0 := by
  constructor <;> decide

/-- C3 amended: the rolling engines themselves do require full windows —
`rolling(4)` is NaN when fewer than 4 positions exist and a number on a full
all-present window, and `calculate_8q_averages` emits no record for an
institution with 7 rows while emitting a number for 8 all-present rows — but
`TTM_NCO_Rate` maps every NaN rolling numerator to the fill `0.0`, so
partial-window positions of the published rate carry `0.0`, not null. -/
theorem c3_rolling_windows :
    (∀ (vals : List Val) (i : ℕ), i + 1 < 4 → rollingSum 4 vals i = none) ∧
    (∀ (vals : List Val) (i : ℕ),
      (windowSlice 4 vals i).length = 4 → allSomeB (windowSlice 4 vals i) = true →
      ∃ q : ℚ, rollingSum 4 vals i = some q) ∧
    (∀ (nq ln : List Val) (i : ℕ), rollingSum 4 nq i = none →
      ttmNcoRate nq ln i = some 0) ∧
    (∀ vals : List Val, vals.length = 7 → eightQLastAvg vals = none) ∧
    (∀ vals : List Val, vals.length = 8 → allSomeB vals = true →
      ∃ q : ℚ, eightQLastAvg vals = some (some q)) := by
  refine ⟨?_, ?_, ?_, ?_, ?_⟩
  · intro vals i hi
    have h0 : i + 1 - 4 = 0 := Nat.sub_eq_zero_of_le (le_of_lt hi)
    have hlen : (windowSlice 4 vals i).length ≠ 4 := by
      have hmin := min_le_left (i + 1) vals.length
      simp only [windowSlice, h0, List.drop_zero, List.length_take]
      omega
    simp only [rollingSum]
    rw [if_neg]
    exact fun h => hlen h.1
  · intro vals i h1 h2
    exact ⟨_, by simp only [rollingSum]; rw [if_pos ⟨h1, h2⟩]⟩
  · intro nq ln i h
    rw [ttmNcoRate, h]
    exact seriesSafeDivideCell_none _ _
  · intro vals h7
    simp [eightQLastAvg, h7]
  · intro vals h8 hall
    have hwin : windowSlice 8 vals (vals.length - 1) = vals := by
      simp [windowSlice, h8, List.take_of_length_le (by omega : vals.length ≤ 7 + 1)]
    refine ⟨((vals.map (fun o => o.getD 0)).sum) / 8, ?_⟩
    simp only [eightQLastAvg, rollingMean, rollingSum]
    rw [if_neg (by omega : ¬ vals.length < 8), hwin, if_pos ⟨h8, hall⟩]
    norm_num

/-- C3 witness: the amended statement at concrete inputs — partial windows
are NaN at the rolling level yet the published rate is 0, 7 rows give no
8-quarter record, 8 full rows give one. -/
theorem c3_witness :
    rollingSum 4 ln4demo 1 = none ∧
    (∃ q : ℚ, rollingSum 4 ln4demo 3 = some q) ∧
    ttmNcoRate q4demo ln4demo 1 = some 0 ∧
    eightQLastAvg sevenDemo = none ∧
    (∃ q : ℚ, eightQLastAvg eightDemo = some (some q)) :=
  ⟨c3_rolling_windows.1 ln4demo 1 (by norm_num),
   c3_rolling_windows.2.1 ln4demo 3 (by decide) (by decide),
   c3_rolling_windows.2.2.1 q4demo ln4demo 1 (by decide),
   c3_rolling_windows.2.2.2.1 sevenDemo (by decide),
   c3_rolling_windows.2.2.2.2 eightDemo (by decide) (by decide)⟩

/-- C5: over the fallback map without the FFIEC-only entries, resolution
walks the ordered candidates and returns the first present non-zero value,
falls back to zero when every candidate is absent or zero, and the only
DERIVED metric is `LNCONOTHX`, computed as the zero-floored residual
`LNCON - LNAUTO - LNCRCD`; candidates `{RCFDJ454 missing, RCONJ454 = 100}`
resolve to 100 and the residual `300 - 50 - 0` resolves to 250. -/
theorem c5_field_resolution :
    (∀ (row : RRow) (s : String) (rest : List String) (q : ℚ),
      row s = RCell.val q → q ≠ 0 → resolveRaw (s :: rest) row = q) ∧
    (∀ (row : RRow) (s : String) (rest : List String),
      (row s = RCell.absent ∨ row s = RCell.navalue ∨ row s = RCell.val 0) →
      resolveRaw (s :: rest) row = resolveRaw rest row) ∧
    (∀ row : RRow, resolveRaw [] row = 0) ∧
    (∀ (fld : String) (src : List String), (fld, src) ∈ fdicFallbackMap →
      src.contains "FFIEC" = false →
      (src.contains "DERIVED" = true → fld = "LNCONOTHX") ∧
      (src.contains "DERIVED" = false →
        ∀ row, resolveField fld src row = resolveRaw src row) ∧
      (fld = "LNCONOTHX" → ∀ row, resolveField fld src row =
        pyMax0 (optSub (optSub (rowGetD row "LNCON") (rowGetD row "LNAUTO"))
          (rowGetD row "LNCRCD")))) ∧
    resolveField "LNOTHNONDEP" ["RCFDJ454", "RCONJ454"] rowExampleA = 100 ∧
    resolveField "LNCONOTHX" ["DERIVED"] rowExampleB = 250 := by
  refine ⟨?_, ?_, ?_, ?_, by decide, ?_⟩
  · intro row s rest q hs hq
    simp [resolveRaw, hs, hq]
  · intro row s rest h
    rcases h with h | h | h <;> simp [resolveRaw, h]
  · intro row; rfl
  · intro fld src h hf
    fin_cases h <;>
      first
        | exact absurd hf (by decide)
        | exact ⟨fun h => absurd h (by decide), fun _ row => rfl,
            fun h => absurd h (by decide)⟩
        | exact ⟨fun _ => rfl, fun h => absurd h (by decide), fun _ row => rfl⟩
  · show max 0 ((300 : ℚ) - 50 - 0) = 250
    rw [max_eq_right (by norm_num)]
    norm_num

/-- C5 witness: the quantified parts of the resolution statement applied at
the sample rows. -/
theorem c5_witness :
    resolveRaw ["RCONJ454"] rowExampleA = 100 ∧
    resolveField "LNCONOTHX" ["DERIVED"] rowExampleB =
      pyMax0 (optSub (optSub (rowGetD rowExampleB "LNCON")
        (rowGetD rowExampleB "LNAUTO")) (rowGetD rowExampleB "LNCRCD")) :=
  ⟨c5_field_resolution.1 rowExampleA "RCONJ454" [] 100 (by decide) (by norm_num),
   (c5_field_resolution.2.2.2.1 "LNCONOTHX" ["DERIVED"] (by decide) (by decide)).2.2
     rfl rowExampleB⟩

/-- The carry of the walk steps through a cons. -/
theorem carryVal_cons (prev : Val) (p : ℕ) (v : Val) (rest : List (ℕ × Val)) :
    carryVal prev ((p, v) :: rest) = carryVal v rest := by
  cases rest with
  | nil => rfl
  | cons y ys =>
      simp only [carryVal, List.getLast?_cons_cons]
      cases h : (y :: ys).getLast? with
      | none => simp at h
      | some x => rfl

/-- `ytdConvert` distributes over append, threading the last cumulative
value of the prefix into the suffix. -/
theorem ytdConvert_append (xs ys : List (ℕ × Val)) (prev : Val) :
    ytdConvert prev (xs ++ ys) =
      ytdConvert prev xs ++ ytdConvert (carryVal prev xs) ys := by
  induction xs generalizing prev with
  | nil => rfl
  | cons x rest ih =>
      obtain ⟨p, v⟩ := x
      simp only [List.cons_append, ytdConvert, carryVal_cons, List.append_eq]
      rw [ih v]

/-- `ytdConvert` emits one quarterly value per input row. -/
theorem ytdConvert_length (prev : Val) (xs : List (ℕ × Val)) :
    (ytdConvert prev xs).length = xs.length := by
  induction xs generalizing prev with
  | nil => rfl
  | cons x rest ih => simpa [ytdConvert] using ih x.2

/-- Converting one complete calendar year (periods `p, p+1, p+2, p+3` with
`p` a Q1) from any carried-in previous value: Q1 keeps the cumulative, the
rest are first differences. -/
theorem ytdConvert_year (carry : Val) (p : ℕ) (c1 c2 c3 c4 : ℚ)
    (hp : p % 4 = 0) :
    ytdConvert carry
        [(p, some c1), (p + 1, some c2), (p + 2, some c3), (p + 3, some c4)] =
      [some c1, some (c2 - c1), some (c3 - c2), some (c4 - c3)] := by
  have h1 : (p + 1) % 4 ≠ 0 := by omega
  have h2 : (p + 2) % 4 ≠ 0 := by omega
  have h3 : (p + 3) % 4 ≠ 0 := by omega
  simp [ytdConvert, hp, h1, h2, h3, optSub]

/-- C6: YTD→quarterly conversion works per institution on ascending periods
— the quarterly value is the first difference except at calendar Q1 where
the cumulative value passes through — so the four converted values of a
complete fiscal year are `c1, c2-c1, c3-c2, c4-c3` (whatever precedes or
follows the year) and sum exactly to the original Q4 cumulative `c4`;
and rows of other institutions never affect an institution's conversion. -/
theorem c6_ytd_roundtrip :
    (∀ (prev : Val) (pre post : List (ℕ × Val)) (p : ℕ) (c1 c2 c3 c4 : ℚ),
      p % 4 = 0 →
      ((ytdConvert prev (pre ++
          ([(p, some c1), (p + 1, some c2), (p + 2, some c3), (p + 3, some c4)]
            ++ post))).drop pre.length).take 4 =
        [some c1, some (c2 - c1), some (c3 - c2), some (c4 - c3)] ∧
      (((ytdConvert prev (pre ++
          ([(p, some c1), (p + 1, some c2), (p + 2, some c3), (p + 3, some c4)]
            ++ post))).drop pre.length).take 4).foldl
        (fun acc o => acc + o.getD 0) 0 = c4) ∧
    (∀ (rows extra : List YtdRow) (c : ℕ), (∀ e ∈ extra, e.cert ≠ c) →
      ytdQuarterlyFor (rows ++ extra) c = ytdQuarterlyFor rows c) := by
  constructor
  · intro prev pre post p c1 c2 c3 c4 hp
    have hyear := ytdConvert_year (carryVal prev pre) p c1 c2 c3 c4 hp
    have hsplit : (ytdConvert prev (pre ++
        ([(p, some c1), (p + 1, some c2), (p + 2, some c3), (p + 3, some c4)]
          ++ post))).drop pre.length =
        ([some c1, some (c2 - c1), some (c3 - c2), some (c4 - c3)] ++
          ytdConvert (some c4) post) := by
      rw [ytdConvert_append]
      rw [show pre.length = (ytdConvert prev pre).length from
        (ytdConvert_length prev pre).symm]
      rw [List.drop_left]
      rw [ytdConvert_append, hyear]
      rfl
    constructor
    · rw [hsplit]
      rfl
    · rw [hsplit]
      show (0 + c1 + (c2 - c1) + (c3 - c2) + (c4 - c3)) = c4
      ring
  · intro rows extra c hx
    have hfil : extra.filter (fun r => r.cert == c) = [] := by
      refine List.filter_eq_nil_iff.mpr ?_
      intro e he
      simpa using hx e he
    simp [ytdQuarterlyFor, List.filter_append, hfil]

/-- C6 witness: one concrete fiscal year 10, 25, 40, 100 converts to
10, 15, 15, 60 and sums back to 100; a foreign institution's row does not
disturb institution 1. -/
theorem c6_witness :
    ((ytdConvert none
        [(8, some 10), (9, some 25), (10, some 40), (11, some 100)]).take 4 =
      [some 10, some (25 - 10), some (40 - 25), some (100 - 40)] ∧
     ((ytdConvert none
        [(8, some 10), (9, some 25), (10, some 40), (11, some 100)]).take 4).foldl
        (fun acc o => acc + o.getD 0) 0 = 100) ∧
    ytdQuarterlyFor (rows6demo ++ extra6demo) 1 = ytdQuarterlyFor rows6demo 1 :=
  ⟨c6_ytd_roundtrip.1 none [] [] 8 10 25 40 100 rfl,
   c6_ytd_roundtrip.2 rows6demo extra6demo 1 (by decide)⟩

/-- C9 counterexample: with the canary fields present and non-zero for
exactly half of the queried cells (3 of 6, not over half), the code still
skips healing for the period — the claim's strict "over half" threshold
predicts a healing attempt here. -/
theorem c9_half_boundary_cex :
    quarterNeedsPatching df9demo 7 = false ∧
    missingOrZeroCount df9demo 7 = 3 ∧ totalCellsCount df9demo 7 = 6 := by
  refine ⟨by decide, by decide, by decide⟩

/-- C9 amended: for a period with rows in the table and at least one canary
column present, healing is skipped exactly when at least half (not strictly
more than half) of the queried canary cells are present and non-zero,
equivalently when the missing-or-zero cells are at most half. -/
theorem c9_needs_patching (df : BankTable) (d : ℕ)
    (hq : df.rows.filter (fun r => r.repdte == d) ≠ [])
    (hc : canaryCols.filter (fun c => df.cols.contains c) ≠ []) :
    quarterNeedsPatching df d = false ↔
      2 * missingOrZeroCount df d ≤ totalCellsCount df d := by
  have hrows : df.rows.isEmpty = false := by
    cases hr : df.rows with
    | nil => exact absurd (by simp [hr]) hq
    | cons a l => rfl
  have hqe : (df.rows.filter (fun r => r.repdte == d)).isEmpty = false := by
    cases hfq : df.rows.filter (fun r => r.repdte == d) with
    | nil => exact absurd hfq hq
    | cons a l => rfl
  have hce : (canaryCols.filter (fun c => df.cols.contains c)).isEmpty = false := by
    cases hfc : canaryCols.filter (fun c => df.cols.contains c) with
    | nil => exact absurd hfc hc
    | cons a l => rfl
  have htot : totalCellsCount df d ≠ 0 := by
    rw [totalCellsCount]
    exact Nat.mul_ne_zero
      (fun h => hc (List.length_eq_zero.mp h))
      (fun h => hq (List.length_eq_zero.mp h))
  rw [quarterNeedsPatching]
  simp only [hrows, hqe, hce, Bool.false_eq_true, if_false, htot, if_neg htot]
  simp only [decide_eq_false_iff_not, not_lt]

/-- C9 witness: the amended equivalence evaluated on the half-and-half
frame. -/
theorem c9_witness :
    quarterNeedsPatching df9demo 7 = false ↔
      2 * missingOrZeroCount df9demo 7 ≤ totalCellsCount df9demo 7 :=
  c9_needs_patching df9demo 7 (by decide) (by decide)

/-- Reading a cell after a column assignment: the assigned column sees the
new value, every other column is untouched. -/
theorem get_setCell (r : BankRow) (col col2 : String) (v : Val) :
    (setCell r col v).get col2 = if col2 = col then v else r.get col2 := by
  by_cases h : col2 = col
  · subst h
    simp [setCell, BankRow.get, List.lookup]
  · have hb : (col2 == col) = false := beq_eq_false_iff_ne.mpr h
    simp [setCell, BankRow.get, List.lookup, h, hb]

/-- A cell with no recovered counterpart survives the healing merge
unchanged. -/
theorem healCell_none (e : Val) : healCell e none = e := by
  cases e <;> simp [healCell]

/-- Keys never present in the patch frame look up to NaN. -/
theorem patchLookup_none (patch : List BankRow) (c p : ℕ) (col : String)
    (h : ∀ r ∈ patch, r.repdte ≠ p) :
    patchLookup patch c p col = none := by
  have hf : patch.find? (fun r => r.cert == c && r.repdte == p) = none := by
    rw [List.find?_eq_none]
    intro r hr
    simp [h r hr]
  simp [patchLookup, hf]

/-- Every row the healer merges carries one of the 8 newest distinct dates. -/
theorem healFrames_repdte (df : BankTable) (fetch : ℕ → List BankRow)
    (hfetch : ∀ p r, r ∈ fetch p → r.repdte = p) :
    ∀ r ∈ (healFrames df fetch).flatten,
      r.repdte ∈ (distinctDatesDesc df).take 8 := by
  intro r hr
  rw [List.mem_flatten] at hr
  obtain ⟨frame, hframe, hrf⟩ := hr
  rw [healFrames, List.mem_filterMap] at hframe
  obtain ⟨d, hd, hopt⟩ := hframe
  by_cases h1 : quarterNeedsPatching df d = true
  · rw [if_pos h1] at hopt
    by_cases h2 : (fetch d).isEmpty = true
    · rw [if_pos h2] at hopt
      cases hopt
    · rw [if_neg h2] at hopt
      have hfd : fetch d = frame := by injection hopt
      rw [hfetch d r (hfd ▸ hrf)]
      exact hd
  · rw [if_neg h1] at hopt
    cases hopt

/-- A merge step never loses a column. -/
theorem mergeStep_cols (patch : List BankRow) (t : BankTable) (c : String) :
    t.cols ⊆ (mergeStep patch t c).cols := by
  rw [mergeStep]
  split_ifs <;> first | exact fun x hx => hx | exact List.subset_append_left _ _

/-- The row-wise invariant preserved by the whole merge loop when no patch
row carries date `d`: certificates and dates are untouched, and every
original column of every date-`d` row keeps its value. -/
theorem mergeFold_preserves (patch : List BankRow) (dcols : List String) (d : ℕ)
    (hpatch : ∀ r ∈ patch, r.repdte ≠ d) (orig : List BankRow) :
    ∀ (colsList : List String) (t : BankTable),
    dcols ⊆ t.cols →
    List.Forall₂ (fun nr orow : BankRow =>
      nr.cert = orow.cert ∧ nr.repdte = orow.repdte ∧
        (orow.repdte = d → ∀ col ∈ dcols, nr.get col = orow.get col))
      t.rows orig →
    dcols ⊆ (colsList.foldl (mergeStep patch) t).cols ∧
    List.Forall₂ (fun nr orow : BankRow =>
      nr.cert = orow.cert ∧ nr.repdte = orow.repdte ∧
        (orow.repdte = d → ∀ col ∈ dcols, nr.get col = orow.get col))
      (colsList.foldl (mergeStep patch) t).rows orig := by
  intro colsList
  induction colsList with
  | nil => exact fun t h1 h2 => ⟨h1, h2⟩
  | cons c cs ih =>
      intro t h1 h2
      rw [List.foldl_cons]
      refine ih (mergeStep patch t c)
        (h1.trans (mergeStep_cols patch t c)) ?_
      rw [mergeStep]
      split_ifs with hp hc
      · -- column already present: heal each cell
        refine List.forall₂_map_left_iff.mpr (h2.imp ?_)
        intro nr orow hro
        refine ⟨hro.1, hro.2.1, ?_⟩
        intro hdd col hcol
        have hnr : nr.repdte = d := hro.2.1.trans hdd
        have hlk : patchLookup patch nr.cert nr.repdte c = none := by
          rw [hnr]
          exact patchLookup_none patch nr.cert d c hpatch
        rw [get_setCell]
        by_cases hcc : col = c
        · subst hcc
          rw [if_pos rfl, hlk, healCell_none]
          exact hro.2.2 hdd col hcol
        · rw [if_neg hcc]
          exact hro.2.2 hdd col hcol
      · -- new column: original columns cannot collide with it
        refine List.forall₂_map_left_iff.mpr (h2.imp ?_)
        intro nr orow hro
        refine ⟨hro.1, hro.2.1, ?_⟩
        intro hdd col hcol
        have hcc : col ≠ c := fun h => hc (by simpa using h1 (h ▸ hcol))
        rw [get_setCell, if_neg hcc]
        exact hro.2.2 hdd col hcol
      · exact h2

/-- C10: the healer touches only the 8 newest distinct reporting periods:
an older date is never in the set of dates the protocol is asked for, the
result does not depend on what the network would answer for dates outside
that set, and every raw cell of every row of an older period survives
`heal_dataset` unchanged (certificates and dates unchanged row by row). -/
theorem c10_heal_frame_effect (df : BankTable) (fetch : ℕ → List BankRow) (d : ℕ)
    (hfetch : ∀ p r, r ∈ fetch p → r.repdte = p)
    (hd : d ∉ (distinctDatesDesc df).take 8) :
    d ∉ healRequestedDates df ∧
    (∀ fetch2 : ℕ → List BankRow,
      (∀ p ∈ healRequestedDates df, fetch p = fetch2 p) →
      healDataset df fetch = healDataset df fetch2) ∧
    List.Forall₂ (fun nr orow : BankRow =>
      nr.cert = orow.cert ∧ nr.repdte = orow.repdte ∧
        (orow.repdte = d → ∀ col ∈ df.cols, nr.get col = orow.get col))
      (healDataset df fetch).1.rows df.rows := by
  have hrefl : List.Forall₂ (fun nr orow : BankRow =>
      nr.cert = orow.cert ∧ nr.repdte = orow.repdte ∧
        (orow.repdte = d → ∀ col ∈ df.cols, nr.get col = orow.get col))
      df.rows df.rows :=
    List.forall₂_same.mpr (fun x _ => ⟨rfl, rfl, fun _ col _ => rfl⟩)
  refine ⟨?_, ?_, ?_⟩
  · intro hmem
    exact hd (List.mem_of_mem_filter hmem)
  · intro fetch2 hagree
    have hframes : healFrames df fetch = healFrames df fetch2 := by
      rw [healFrames, healFrames]
      refine List.filterMap_congr ?_
      intro a ha
      by_cases hna : quarterNeedsPatching df a = true
      · rw [if_pos hna, if_pos hna,
          hagree a (List.mem_filter.mpr ⟨ha, hna⟩)]
      · rw [if_neg hna, if_neg hna]
    simp only [healDataset, hframes]
  · simp only [healDataset]
    split_ifs with he hf
    · exact hrefl
    · exact hrefl
    · have hpatch : ∀ r ∈ (healFrames df fetch).flatten, r.repdte ≠ d := by
        intro r hr hrd
        exact hd (hrd ▸ healFrames_repdte df fetch hfetch r hr)
      exact (mergeFold_preserves (healFrames df fetch).flatten df.cols d hpatch
        df.rows targetFields df (fun x hx => hx) hrefl).2

/-- C10 witness: a frame with nine distinct periods; period 1 is older than
the 8 newest and is never requested, the result ignores the network outside
the requested dates, and period 1's cells are unchanged. -/
theorem c10_witness :
    1 ∉ healRequestedDates df10demo ∧
    (∀ fetch2 : ℕ → List BankRow,
      (∀ p ∈ healRequestedDates df10demo, fetch10demo p = fetch2 p) →
      healDataset df10demo fetch10demo = healDataset df10demo fetch2) ∧
    List.Forall₂ (fun nr orow : BankRow =>
      nr.cert = orow.cert ∧ nr.repdte = orow.repdte ∧
        (orow.repdte = 1 → ∀ col ∈ df10demo.cols, nr.get col = orow.get col))
      (healDataset df10demo fetch10demo).1.rows df10demo.rows :=
  c10_heal_frame_effect df10demo fetch10demo 1
    (fun p r h => absurd h (List.not_mem_nil r))
    (by decide)

/-- An attempt with a missing state token or a non-archive step-3 body
never yields a download. -/
theorem badAttempt_download (a : AttemptEnv) (h : badAttempt a = true) :
    downloadWithWebforms a = false := by
  rcases a with ⟨⟨s1, v1, z1⟩, ⟨s2, v2, z2⟩, ⟨s3, v3, z3⟩⟩
  cases v1 <;> cases v2 <;> cases z3 <;>
    simp_all [badAttempt, downloadWithWebforms]

/-- C8 counterexample: with two sparse periods where period 1's downloads
all fail and period 2 succeeds, the frame-wide `FFIEC_RIC_STATUS` ends up
SUCCESS for every row — the failed period is never individually marked
FAILED, it is only skipped. -/
theorem c8_status_cex :
    quarterNeedsPatching df8demo 1 = true ∧
    fetch8demo 1 = [] ∧
    (healDataset df8demo fetch8demo).2 = some true := by
  refine ⟨by decide, by decide, by decide⟩

/-- C8 amended: when every (fresh-session) attempt for a period has a
response missing `__VIEWSTATE` or an HTML step-3 body, the download loop
fails after exactly the configured 3 attempts, the archive parser is never
invoked (the result is the empty frame no matter what the parser would
return), and the run continues: a later period still heals, though the
status column is then SUCCESS frame-wide rather than FAILED for the lost
period. -/
theorem c8_retry_protocol (env : ℕ → AttemptEnv)
    (h : ∀ k, badAttempt (env k) = true) :
    fetchQuarterRetry env = (false, 3) ∧
    (∀ parsed : List BankRow, fetchQuarterOutcome env parsed = []) ∧
    (healDataset df8demo fetch8demo).2 = some true := by
  have d0 := badAttempt_download (env 0) (h 0)
  have d1 := badAttempt_download (env 1) (h 1)
  have d2 := badAttempt_download (env 2) (h 2)
  have hr : fetchQuarterRetry env = (false, 3) := by
    simp [fetchQuarterRetry, d0, d1, d2]
  exact ⟨hr, fun parsed => by simp [fetchQuarterOutcome, hr], by decide⟩

/-- C8 witness: the amended statement under the always-failing responses. -/
theorem c8_witness :
    fetchQuarterRetry (fun _ => badEnvDemo) = (false, 3) ∧
    (∀ parsed : List BankRow,
      fetchQuarterOutcome (fun _ => badEnvDemo) parsed = []) ∧
    (healDataset df8demo fetch8demo).2 = some true :=
  c8_retry_protocol (fun _ => badEnvDemo)
    (fun _ => (by decide : badAttempt badEnvDemo = true))

/-- C1 counterexample: a main frame and an LNCI frame with zero overlapping
(CERT, REPDTE) keys — the error is logged (`.2 = true`) yet the merged frame
is still produced with its full row count and an all-NaN LNCI column, and
execution flows on into the healer; nothing aborts and no
`JoinIntegrityError` exists in the program. -/
theorem c1_zero_overlap_cex :
    overlapKeys main1demo lnci1demo = 0 ∧
    (mergeLnci main1demo lnci1demo).2 = true ∧
    (mergeLnci main1demo lnci1demo).1.rows.map (fun r => r.get "LNCI") = [none] ∧
    (mergeLnci main1demo lnci1demo).1.rows.length = main1demo.rows.length := by
  refine ⟨by decide, by decide, by decide, by decide⟩

/-- C1 amended: whenever the separately fetched LNCI frame is non-empty and
shares zero keys with the main frame, `fetch_all_banks` logs the
no-overlapping-keys error and continues: the left merge (and its string-key
fallback, which uses the same normalized keys) is performed anyway, yielding
the same rows with LNCI NaN everywhere, and the batch proceeds. -/
theorem c1_zero_overlap_continues (main : BankTable) (lnci : List LnciRow)
    (hne : lnci ≠ []) (hz : overlapKeys main lnci = 0) :
    (mergeLnci main lnci).2 = true ∧
    (mergeLnci main lnci).1.rows.length = main.rows.length ∧
    ∀ r ∈ (mergeLnci main lnci).1.rows, r.get "LNCI" = none := by
  have hie : lnci.isEmpty = false := by
    cases hl : lnci with
    | nil => exact absurd hl hne
    | cons a l => rfl
  have hlook : ∀ rw ∈ main.rows, lnciLookup lnci rw.cert rw.repdte = none := by
    intro rw hrw
    have hk : (rw.cert, rw.repdte) ∈ (main.rows.map (fun r => (r.cert, r.repdte))).dedup :=
      List.mem_dedup.mpr (List.mem_map_of_mem _ hrw)
    have hnp := (List.countP_eq_zero.mp hz) _ hk
    have hfind : lnci.find? (fun l => l.cert == rw.cert && l.repdte == rw.repdte) = none := by
      rw [List.find?_eq_none]
      intro l hl hpl
      exact hnp (List.any_eq_true.mpr ⟨l, hl, hpl⟩)
    simp [lnciLookup, hfind]
  rw [mergeLnci, if_neg (by simp [hie])]
  refine ⟨by simp [hz], by simp, ?_⟩
  intro r hr
  rw [List.mem_map] at hr
  obtain ⟨r0, hr0, rfl⟩ := hr
  rw [get_setCell, if_pos rfl]
  exact hlook r0 hr0

/-- C1 witness: the amended statement on the concrete zero-overlap frames. -/
theorem c1_witness :
    (mergeLnci main1demo lnci1demo).2 = true ∧
    (mergeLnci main1demo lnci1demo).1.rows.length = main1demo.rows.length ∧
    ∀ r ∈ (mergeLnci main1demo lnci1demo).1.rows, r.get "LNCI" = none :=
  c1_zero_overlap_continues main1demo lnci1demo (by decide) (by decide)

end BankDash
